import Mathlib

/-!
Shallow embedding of the umem MCP gateway (crates/umem_mcp: token.rs, lib.rs,
service.rs) and of the parts of crates/umem_controller and crates/umem_vector
that the gateway's tool handlers call.  Rust `Result`/`panic` behaviour is made
explicit: a function that can `unwrap`/`expect`/`panic!` returns an `Outcome`
(or an `Option` where `none` marks the panic), and external effects (the JWT
crypto library, the environment, the memory controller's network backend) enter
as explicit parameters.
-/

namespace Umem

/-- Association-list lookup, modelling `HashMap::get` / `HeaderMap::get`
(first binding wins; `HashMap::insert` is modelled by prepending). -/
def assocFind {α : Type} (m : List (String × α)) (k : String) : Option α :=
  (m.find? (fun p => p.1 == k)).map (fun p => p.2)

/-- Result of a Rust computation that may panic, fail with a typed error,
or succeed. -/
inductive Outcome (ε α : Type) where
  | panicked : Outcome ε α
  | err : ε → Outcome ε α
  | ok : α → Outcome ε α
deriving Repr, DecidableEq

/-! ### token.rs -/

/-- Claims structure of token.rs: `sub` and `exp`. -/
structure Claims where
  sub : String
  exp : Nat
deriving Repr, DecidableEq

/-- A single JSON web key, as in token.rs. -/
structure JWK where
  kid : String
  kty : String
  alg : String
  n : String
  e : String
deriving Repr, DecidableEq

/-- The fetched key set, as in token.rs. -/
structure JWKS where
  keys : List JWK
deriving Repr, DecidableEq

/-- Modelled from the spec: the observable content of a JWT string as reported
by the external `jsonwebtoken` crate (not part of this repository).
`headerOk` is whether `decode_header` succeeds; `kid`/`alg` come from the
header; `sub`/`exp`/`aud` are the claims; `sigKey` is the RSA component pair
`(n, e)` under which the signature verifies (`none` if the signature verifies
under no key). -/
structure JwtToken where
  headerOk : Bool
  kid : Option String
  alg : String
  sub : String
  exp : Nat
  aud : String
  sigKey : Option (String × String)
deriving Repr, DecidableEq

/-- Modelled from the spec: `jsonwebtoken::decode::<Claims>` with
`Validation::new(Algorithm::RS256)` and `set_audience(&[client_id])`, the
external crate called by `check_token`.  Following spec section 4.2 it checks
the declared algorithm, the signature under the resolved key, that `exp` is
strictly greater than the current time, and the audience, in that order,
short-circuiting with a typed error. -/
def jwtDecode (tok : JwtToken) (n e : String) (clientId : String) (now : Nat) :
    Except String Claims :=
  if tok.alg ≠ "RS256" then .error ("JWT Decode Error: InvalidAlgorithm")
  else if tok.sigKey ≠ some (n, e) then .error ("JWT Decode Error: InvalidSignature")
  else if ¬ now < tok.exp then .error ("JWT Decode Error: ExpiredSignature")
  else if tok.aud ≠ clientId then .error ("JWT Decode Error: InvalidAudience")
  else .ok ⟨tok.sub, tok.exp⟩

/-- Embedding of `check_token` (token.rs).  `rsaOk` models
`DecodingKey::from_rsa_components` succeeding on the key's components;
`workosClientId` is the `WORKOS_CLIENT_ID` environment variable.  The source's
`decode_header(token).unwrap()` is a panic when the header cannot be parsed. -/
def check_token (rsaOk : String → String → Bool) (tok : JwtToken) (keys : JWKS)
    (workosClientId : Option String) (now : Nat) : Outcome String Claims :=
  if ¬ tok.headerOk then .panicked
  else
    match tok.kid with
    | none => .err ("No kid found in token header")
    | some kid =>
      match workosClientId with
      | none => .err ("WORKOS_CLIENT_ID environment variable not set")
      | some clientId =>
        match keys.keys.find? (fun k => k.kid == kid) with
        | none => .err ("No matching kid found in jwks")
        | some jwk =>
          if ¬ rsaOk jwk.n jwk.e then .err ("Decoding Key Error")
          else
            match jwtDecode tok jwk.n jwk.e clientId now with
            | .error m => .err m
            | .ok c => .ok c

/-! ### validate_token_middleware (lib.rs) -/

/-- An inbound HTTP request, reduced to its header map (the only part the
middleware and the tool handlers inspect). -/
structure HttpRequest where
  headers : List (String × String)
deriving Repr, DecidableEq

/-- Consume an expected prefix of a character list, returning the remainder
(`str::strip_prefix` at character level). -/
def expectChars : List Char → List Char → Option (List Char)
  | [], cs => some cs
  | _ :: _, [] => none
  | p :: ps, c :: cs => if c = p then expectChars ps cs else none

/-- Embedding of `header_str.strip_prefix("Bearer ")`. -/
def stripBearer (s : String) : Option String :=
  (expectChars ("Bearer ").data s.data).map (fun r => ⟨r⟩)

/-- Result of the middleware: a panic, a plain HTTP response (status and
body), or the downstream handler's own result. -/
inductive MwResult (ρ : Type) where
  | panicked : MwResult ρ
  | response : Nat → String → MwResult ρ
  | downstream : ρ → MwResult ρ
deriving Repr, DecidableEq

/-- Embedding of `validate_token_middleware` (lib.rs lines 452-485).
`tokenOf` models the external JWT parse of the bearer string (see `JwtToken`).
Missing `Authorization` header and a header without the `Bearer ` prefix both
produce `StatusCode::UNAUTHORIZED.into_response()` (401, empty body); a
`check_token` error produces the identical response; on success the request is
passed downstream unchanged (nothing is attached to it). -/
def validate_token_middleware {ρ : Type} (rsaOk : String → String → Bool)
    (tokenOf : String → JwtToken) (jwks : JWKS) (workosClientId : Option String)
    (now : Nat) (request : HttpRequest) (next : HttpRequest → ρ) : MwResult ρ :=
  match assocFind request.headers ("Authorization") with
  | none => .response 401 ""
  | some headerStr =>
    match stripBearer headerStr with
    | none => .response 401 ""
    | some token =>
      match check_token rsaOk (tokenOf token) jwks workosClientId now with
      | .panicked => .panicked
      | .err _ => .response 401 ""
      | .ok _ => .downstream (next request)

/-! ### service.rs -/

/-- Modelled from the spec: the well-known header key under which the verified
subject is supposed to travel.  `service.rs` imports `crate::USER_ID_HEADER`,
but no definition of this constant exists under the sources; the spec calls it
"a single well-known key".  Its concrete value is irrelevant to every theorem
below. -/
def USER_ID_HEADER : String := "x-user-id"

/-- Embedding of `extract_user_id` (service.rs lines 37-45): reads the
`USER_ID_HEADER` header of the request parts; the source `.expect`s, so
`none` here is a panic ("Missing user ID header"). -/
def extract_user_id (parts : List (String × String)) : Option String :=
  assocFind parts USER_ID_HEADER

/-- Memory record of the prost-generated `generated::Memory` as used by the
handlers (`memory_id`, `user_id`, `content`; the `.proto` source is not under
the sources, the fields are those the Rust code reads and writes). -/
structure Memory where
  memory_id : String
  user_id : String
  content : String
deriving Repr, DecidableEq

/-- Parameters of `MemoryController::get_memories_by_user_id`. -/
structure GetMemoriesByUserIdParameters where
  user_id : String
deriving Repr, DecidableEq

/-- Parameters of `MemoryController::get_memories_by_query`. -/
structure GetMemoriesByQueryParameters where
  user_id : String
  query : String
deriving Repr, DecidableEq

/-- Parameters of `MemoryController::update_memory`; `user_id` defaults to the
empty string under `..Default::default()`. -/
structure UpdateMemoryParameters where
  memory_id : String
  user_id : String
  content : String
deriving Repr, DecidableEq

/-- Input schema of the `add_memory` tool. -/
structure AddMemoryRequest where
  text : String
deriving Repr, DecidableEq

/-- Input schema of the `get_memory_by_query` tool. -/
structure GetMemoriesByQueryRequest where
  query : String
deriving Repr, DecidableEq

/-- Input schema of the `update_memory` tool (source spelling kept). -/
structure UpdateMememoryRequest where
  memory_id : String
  content : String
deriving Repr, DecidableEq

/-- The call a tool handler makes into `MemoryController`, with the exact
arguments passed. -/
inductive ControllerCall where
  | addMemory (memory : Memory)
  | getMemoriesByUserId (p : GetMemoriesByUserIdParameters)
  | getMemoriesByQuery (p : GetMemoriesByQueryParameters)
  | updateMemory (p : UpdateMemoryParameters)
deriving Repr, DecidableEq

/-- Behaviour of the external `MemoryController` backend (network/database):
whether each operation returns `Ok`, and which records a retrieval returns.
The handlers `.unwrap()` controller results, so a failing operation is a
panic at the call site. -/
structure ControllerOracle where
  addOk : Memory → Bool
  getByUser : GetMemoriesByUserIdParameters → Option (List Memory)
  getByQuery : GetMemoriesByQueryParameters → Option (List Memory)
  updateOk : UpdateMemoryParameters → Bool

/-- Outcome of one tool handler invocation. -/
inductive ToolResult where
  | panicked : ToolResult
  | invalidRequest : String → ToolResult
  | success : List String → ToolResult
deriving Repr, DecidableEq

/-- One tool handler run: the controller call it performed (if any) and its
result. -/
structure ToolRun where
  call : Option ControllerCall
  result : ToolResult
deriving Repr, DecidableEq

/-- JSON string escaping of `"` and `\` (the escapes `serde_json` emits for
the strings occurring here). -/
def escChars : List Char → List Char
  | [] => []
  | c :: cs => if c = '"' ∨ c = '\\' then '\\' :: c :: escChars cs else c :: escChars cs

/-- Modelled from the spec: `serde_json::to_string` of a prost-generated
`generated::Memory` (the `.proto` source is not under the sources; field
order follows the declaration order used here). -/
def serializeMemory (m : Memory) : String :=
  ⟨("\x7b\"memory_id\":\"").data ++ escChars m.memory_id.data
    ++ ("\",\"user_id\":\"").data ++ escChars m.user_id.data
    ++ ("\",\"content\":\"").data ++ escChars m.content.data
    ++ ("\"\x7d").data⟩

/-- Embedding of the `add_memory` tool handler (service.rs lines 66-95).
The user id is extracted from the request parts before the emptiness check;
`serde_json::to_string(&())` of the controller's unit result is `"null"`. -/
def add_memory (oracle : ControllerOracle) (parts : List (String × String))
    (input : AddMemoryRequest) : ToolRun :=
  match extract_user_id parts with
  | none => ⟨none, .panicked⟩
  | some user_id =>
    if input.text = "" then
      ⟨none, .invalidRequest ("Memory content cannot be empty")⟩
    else
      let memory : Memory := { memory_id := "", user_id := user_id, content := input.text }
      if oracle.addOk memory then ⟨some (.addMemory memory), .success ["null"]⟩
      else ⟨some (.addMemory memory), .panicked⟩

/-- Embedding of the `get_memory` tool handler (service.rs lines 101-120):
all records for the extracted user id, serialized and newline-joined. -/
def get_memory (oracle : ControllerOracle) (parts : List (String × String)) : ToolRun :=
  match extract_user_id parts with
  | none => ⟨none, .panicked⟩
  | some user_id =>
    let p : GetMemoriesByUserIdParameters := { user_id := user_id }
    match oracle.getByUser p with
    | none => ⟨some (.getMemoriesByUserId p), .panicked⟩
    | some mems =>
      ⟨some (.getMemoriesByUserId p),
        .success [String.intercalate "\n" (mems.map serializeMemory)]⟩

/-- Embedding of the `get_memory_by_query` tool handler (service.rs lines
126-147). -/
def get_memory_by_query (oracle : ControllerOracle) (parts : List (String × String))
    (input : GetMemoriesByQueryRequest) : ToolRun :=
  match extract_user_id parts with
  | none => ⟨none, .panicked⟩
  | some user_id =>
    let p : GetMemoriesByQueryParameters := { user_id := user_id, query := input.query }
    match oracle.getByQuery p with
    | none => ⟨some (.getMemoriesByQuery p), .panicked⟩
    | some mems =>
      ⟨some (.getMemoriesByQuery p),
        .success [String.intercalate "\n" (mems.map serializeMemory)]⟩

/-- Embedding of the `update_memory` tool handler (service.rs lines 153-164).
It takes no `Extension<Parts>` argument: the authenticated context is never
read, and `UpdateMemoryParameters` is built with `..Default::default()`, so
`user_id` is the empty string. -/
def update_memory (oracle : ControllerOracle) (input : UpdateMememoryRequest) : ToolRun :=
  let p : UpdateMemoryParameters :=
    { memory_id := input.memory_id, user_id := "", content := input.content }
  if oracle.updateOk p then ⟨some (.updateMemory p), .success []⟩
  else ⟨some (.updateMemory p), .panicked⟩

/-! ### lib.rs: OAuth store, discovery metadata, authorize/register/token/callback -/

/-- Hard-coded external base URL of the gateway (lib.rs `NGROK_ADDRESS`). -/
def NGROK_ADDRESS : String := "https://mccp.evenscribe.com"

/-- Client configuration stored in the registry (`rmcp`'s `OAuthClientConfig`
with the fields this crate uses). -/
structure OAuthClientConfig where
  client_id : String
  client_secret : Option String
  scopes : List String
  redirect_uri : String
deriving Repr, DecidableEq

/-- Token record (`AuthToken` of lib.rs). -/
structure AuthToken where
  access_token : String
  token_type : String
  expires_in : Nat
  refresh_token : String
  scope : Option String
deriving Repr, DecidableEq

/-- Auth session record of lib.rs (`_created_at` as a Unix timestamp). -/
structure AuthSession where
  client_id : String
  scope : Option String
  state : Option String
  created_at : Int
  auth_token : Option AuthToken
deriving Repr, DecidableEq

/-- The OAuth store of lib.rs; the three `HashMap`s become association lists
(insert = prepend, lookup = first binding). -/
structure McpOAuthStore where
  clients : List (String × OAuthClientConfig)
  auth_sessions : List (String × AuthSession)
  access_tokens : List (String × AuthToken)
  jwks : JWKS
  workos_client_id : String
  workos_client_secret : String
deriving Repr, DecidableEq

/-- The registration the constructor seeds into the `clients` map. -/
def seededClient : OAuthClientConfig :=
  { client_id := "mcp-client"
    client_secret := some ("mcp-client-secret")
    scopes := ["profile", "email"]
    redirect_uri := "http://localhost:8080/callback" }

/-- Embedding of `McpOAuthStore::new` (lib.rs lines 52-78).  The environment
variables and the JWKS fetch are explicit inputs; the source `.unwrap()`s /
`.expect`s each of them, so a missing one is a panic.  The `clients` map is
seeded with the hard-coded `mcp-client` registration before anything else. -/
def McpOAuthStore.new (envWorkosClientId envWorkosClientSecret envJwksUrl : Option String)
    (fetchJwks : String → Option JWKS) : Outcome Unit McpOAuthStore :=
  match envWorkosClientId with
  | none => .panicked
  | some cid =>
    match envWorkosClientSecret with
    | none => .panicked
    | some csec =>
      match envJwksUrl with
      | none => .panicked
      | some url =>
        match fetchJwks url with
        | none => .panicked
        | some jwks =>
          .ok { clients := [("mcp-client", seededClient)]
                auth_sessions := []
                access_tokens := []
                jwks := jwks
                workos_client_id := cid
                workos_client_secret := csec }

/-- Contiguous-substring test at character level (Rust `str::contains`). -/
def isInfixChars (needle : List Char) : List Char → Bool
  | [] => (expectChars needle []).isSome
  | c :: cs => (expectChars needle (c :: cs)).isSome || isInfixChars needle cs

/-- Embedding of `McpOAuthStore::validate_client` (lib.rs lines 80-94); note
the source tests `client.redirect_uri.contains(&redirect_uri)`, a substring
check. -/
def McpOAuthStore.validate_client (store : McpOAuthStore) (client_id redirect_uri : String) :
    Option OAuthClientConfig :=
  match assocFind store.clients client_id with
  | none => none
  | some client =>
    if isInfixChars redirect_uri.data client.redirect_uri.data then some client else none

/-- Query parameters of `/oauth/authorize` (`AuthorizeQuery` of lib.rs). -/
structure AuthorizeQuery where
  response_type : String
  code_challenge : Option String
  code_challenge_method : Option String
  client_id : String
  redirect_uri : String
  scope : Option String
  state : Option String
deriving Repr, DecidableEq

/-- The state object round-tripped through the upstream identity provider
(`WorkOsState` of lib.rs). -/
structure WorkOsState where
  client_id : String
  original_state : String
  scopes : String
  original_redirect_uri : String
deriving Repr, DecidableEq

/-- Serialization of `WorkOsState` as `serde_json::to_string` produces it
(field declaration order, `"` and `\` escaped). -/
def serializeWorkOsState (s : WorkOsState) : String :=
  ⟨("\x7b\"client_id\":\"").data ++ escChars s.client_id.data
    ++ ("\",\"original_state\":\"").data ++ escChars s.original_state.data
    ++ ("\",\"scopes\":\"").data ++ escChars s.scopes.data
    ++ ("\",\"original_redirect_uri\":\"").data ++ escChars s.original_redirect_uri.data
    ++ ("\"\x7d").data⟩

/-- Read a JSON string body up to its closing quote, undoing the escapes of
`escChars`; returns the content and the remaining input. -/
def takeJsonStr : List Char → Option (List Char × List Char)
  | [] => none
  | c :: cs =>
    if c = '\\' then
      match cs with
      | [] => none
      | d :: ds => (takeJsonStr ds).map (fun p => (d :: p.1, p.2))
    else if c = '"' then some ([], cs)
    else (takeJsonStr cs).map (fun p => (c :: p.1, p.2))

/-- Modelled from the spec: `serde_json::from_str::<WorkOsState>`, the inverse
of `serializeWorkOsState` for the exact document shape that serializer emits
(which is the only shape the callback ever receives from the authorize
redirect). -/
def deserializeWorkOsState (s : String) : Option WorkOsState := do
  let cs ← expectChars ("\x7b\"client_id\":\"").data s.data
  let (cid, cs) ← takeJsonStr cs
  let cs ← expectChars (",\"original_state\":\"").data cs
  let (ost, cs) ← takeJsonStr cs
  let cs ← expectChars (",\"scopes\":\"").data cs
  let (sc, cs) ← takeJsonStr cs
  let cs ← expectChars (",\"original_redirect_uri\":\"").data cs
  let (oru, cs) ← takeJsonStr cs
  match cs with
  | ['\x7d'] => some ⟨⟨cid⟩, ⟨ost⟩, ⟨sc⟩, ⟨oru⟩⟩
  | _ => none

/-- A URL as built by `reqwest::Url::parse_with_params`: base plus query
pairs (URL syntax checking of the base is outside the model). -/
structure Url where
  base : String
  params : List (String × String)
deriving Repr, DecidableEq

/-- HTTP responses the handlers under study can produce. -/
inductive HttpRes where
  | temporaryRedirect : Url → HttpRes
  | badRequest : String → String → HttpRes
  | panicked : HttpRes
deriving Repr, DecidableEq

/-- The upstream redirect URL `oauth_authorize` builds (lib.rs lines 261-286). -/
def workosAuthorizeUrl (workos_client_id : String) (params : AuthorizeQuery) : Url :=
  { base := "https://api.workos.com/user_management/authorize"
    params := [
      ("response_type", "code"),
      ("client_id", workos_client_id),
      ("redirect_uri", "https://mccp.evenscribe.com/mcp/callback"),
      ("code_challenge", params.code_challenge.getD ""),
      ("code_challenge_method", params.code_challenge_method.getD ("S256")),
      ("provider", "authkit"),
      ("state", serializeWorkOsState
        { client_id := params.client_id
          original_state := params.state.getD ""
          scopes := params.scope.getD ""
          original_redirect_uri := params.redirect_uri }),
      ("scope", "openid profile email offline_access")] }

/-- Embedding of `oauth_authorize` (lib.rs lines 236-299).  The
`validate_client` call and the bad-request branch are commented out in the
source: every query is answered with a temporary redirect to the upstream
identity provider, and only `workos_client_id` is read from the store. -/
def oauth_authorize (store : McpOAuthStore) (params : AuthorizeQuery) : HttpRes :=
  .temporaryRedirect (workosAuthorizeUrl store.workos_client_id params)

/-- Embedding of `workos_callback` (lib.rs lines 625-638): reads `code` and
`state` from the query, `.unwrap()`s the state deserialization (panic on
failure), and redirects to the state's `original_redirect_uri` with the code
and original state attached — no registry lookup of any kind. -/
def workos_callback (query : List (String × String)) : HttpRes :=
  let code := (assocFind query ("code")).getD ""
  let state := (assocFind query ("state")).getD ""
  match deserializeWorkOsState state with
  | none => .panicked
  | some ds =>
    .temporaryRedirect
      { base := ds.original_redirect_uri
        params := [("code", code), ("state", ds.original_state)] }

/-- Minimal JSON value type covering the `serde_json::Value`s the metadata
document actually stores (strings and arrays of strings). -/
inductive JsonVal where
  | str : String → JsonVal
  | arrStr : List String → JsonVal
deriving Repr, DecidableEq

/-- Authorization-server metadata (`rmcp`'s `AuthorizationMetadata` with the
fields lib.rs fills in). -/
structure AuthorizationMetadata where
  authorization_endpoint : String
  token_endpoint : String
  scopes_supported : Option (List String)
  registration_endpoint : String
  issuer : Option String
  jwks_uri : Option String
  additional_fields : List (String × JsonVal)
deriving Repr, DecidableEq

/-- Embedding of `oauth_authorization_server` (lib.rs lines 511-534): the
constant metadata document served with status 200. -/
def oauth_authorization_server : Nat × AuthorizationMetadata :=
  (200,
    { authorization_endpoint := NGROK_ADDRESS ++ "/oauth/authorize"
      token_endpoint := NGROK_ADDRESS ++ "/oauth/token"
      scopes_supported := some ["profile", "email"]
      registration_endpoint := NGROK_ADDRESS ++ "/oauth/register"
      issuer := some ("https://api.workos.com")
      jwks_uri := some ("https://api.workos.com/sso/jwks/client_01K1HS6DV6AVDJKYSVSD6XRZQN")
      additional_fields :=
        [("response_types_supported", .arrStr ["code"]),
         ("code_challenge_methods_supported", .arrStr ["S256"])] })

/-- Dynamic-registration request (`rmcp`'s `ClientRegistrationRequest` fields
used by lib.rs). -/
structure ClientRegistrationRequest where
  client_name : String
  redirect_uris : List String
deriving Repr, DecidableEq

/-- Dynamic-registration response (`rmcp`'s `ClientRegistrationResponse`
fields used by lib.rs). -/
structure ClientRegistrationResponse where
  client_id : String
  client_secret : Option String
  client_name : String
  redirect_uris : List String
deriving Repr, DecidableEq

/-- Result of `oauth_register`. -/
inductive RegisterRes where
  | badRequest : String → String → RegisterRes
  | created : ClientRegistrationResponse → RegisterRes
deriving Repr, DecidableEq

/-- Embedding of `oauth_register` (lib.rs lines 537-580).  `freshUuid` and
`freshSecret` stand for the random identifiers the source draws; the function
returns the HTTP result and the updated `clients` map. -/
def oauth_register (clients : List (String × OAuthClientConfig))
    (req : ClientRegistrationRequest) (freshUuid freshSecret : String) :
    RegisterRes × List (String × OAuthClientConfig) :=
  match req.redirect_uris with
  | [] => (.badRequest ("invalid_request") ("at least one redirect uri is required"), clients)
  | uri0 :: _ =>
    let client_id := "client-" ++ freshUuid
    let client : OAuthClientConfig :=
      { client_id := client_id
        client_secret := some freshSecret
        scopes := []
        redirect_uri := uri0 }
    (.created { client_id := client_id
                client_secret := some freshSecret
                client_name := req.client_name
                redirect_uris := req.redirect_uris },
     (client_id, client) :: clients)

/-- The JSON payload `oauth_token` would send to the upstream identity
provider. -/
inductive UpstreamAuthRequest where
  | authorizationCode (client_id client_secret code code_verifier : String)
  | refreshToken (client_id client_secret refresh_token : String)
deriving Repr, DecidableEq

/-- How far `oauth_token` gets before suspending on the upstream call:
either it panics, or it issues the given upstream authentication request. -/
inductive TokenStep where
  | panicked : TokenStep
  | sends : UpstreamAuthRequest → TokenStep
deriving Repr, DecidableEq

/-- Embedding of `oauth_token` (lib.rs lines 384-449) up to the outbound
upstream call.  The form is a `HashMap<String, String>`; `grant_type` is
looked up with `unwrap_or_default`, but `code`, `code_verifier` and
`refresh_token` are `.unwrap()`ed (panic when absent), and an unrecognized
grant type hits `panic!("Invalid grant type")`. -/
def oauth_token (store : McpOAuthStore) (form : List (String × String)) : TokenStep :=
  let grant_type := (assocFind form ("grant_type")).getD ""
  if grant_type = "authorization_code" then
    match assocFind form ("code") with
    | none => .panicked
    | some code =>
      match assocFind form ("code_verifier") with
      | none => .panicked
      | some cv =>
        .sends (.authorizationCode ("client_01K1HS6DV6AVDJKYSVSD6XRZQN")
          store.workos_client_secret code cv)
  else if grant_type = "refresh_token" then
    match assocFind form ("refresh_token") with
    | none => .panicked
    | some rt =>
      .sends (.refreshToken ("client_01K1HS6DV6AVDJKYSVSD6XRZQN")
        store.workos_client_secret rt)
  else .panicked

/-! ### Helper lemmas -/

theorem expectChars_append (p r : List Char) : expectChars p (p ++ r) = some r := by
  induction p with
  | nil => simp [expectChars]
  | cons c cs ih => simp [expectChars, ih]

theorem data_append (a b : String) : (a ++ b).data = a.data ++ b.data := rfl

theorem mk_data (t : String) : (⟨t.data⟩ : String) = t := rfl

theorem stripBearer_bearer_append (t : String) : stripBearer ("Bearer " ++ t) = some t := by
  show (expectChars ("Bearer ").data ("Bearer " ++ t).data).map (fun r => (⟨r⟩ : String))
      = some t
  rw [show ("Bearer " ++ t).data = ("Bearer ").data ++ t.data from rfl, expectChars_append]
  rfl

theorem takeJsonStr_cons (c : Char) (cs : List Char) :
    takeJsonStr (c :: cs) =
      if c = '\\' then
        match cs with
        | [] => none
        | d :: ds => (takeJsonStr ds).map (fun p => (d :: p.1, p.2))
      else if c = '"' then some ([], cs)
      else (takeJsonStr cs).map (fun p => (c :: p.1, p.2)) := by
  rw [takeJsonStr.eq_def]

theorem takeJsonStr_escChars (s rest : List Char) :
    takeJsonStr (escChars s ++ '"' :: rest) = some (s, rest) := by
  induction s with
  | nil =>
    rw [escChars, List.nil_append, takeJsonStr_cons, if_neg (by decide), if_pos rfl]
  | cons c cs ih =>
    by_cases hc : c = '"' ∨ c = '\\'
    · rw [escChars, if_pos hc, List.cons_append, List.cons_append, takeJsonStr_cons,
        if_pos rfl]
      simp [ih]
    · push_neg at hc
      rw [escChars, if_neg (by simp [hc.1, hc.2]), List.cons_append, takeJsonStr_cons,
        if_neg hc.2, if_neg hc.1, ih]
      rfl

theorem deserializeWorkOsState_serializeWorkOsState (s : WorkOsState) :
    deserializeWorkOsState (serializeWorkOsState s) = some s := by
  have e1 : ("\",\"original_state\":\"").data = '"' :: (",\"original_state\":\"").data := rfl
  have e2 : ("\",\"scopes\":\"").data = '"' :: (",\"scopes\":\"").data := rfl
  have e3 : ("\",\"original_redirect_uri\":\"").data
      = '"' :: (",\"original_redirect_uri\":\"").data := rfl
  have e4 : ("\"\x7d").data = '"' :: ['\x7d'] := rfl
  have hdata : (serializeWorkOsState s).data
      = ("\x7b\"client_id\":\"").data ++ (escChars s.client_id.data
        ++ '"' :: ((",\"original_state\":\"").data ++ (escChars s.original_state.data
        ++ '"' :: ((",\"scopes\":\"").data ++ (escChars s.scopes.data
        ++ '"' :: ((",\"original_redirect_uri\":\"").data ++ (escChars s.original_redirect_uri.data
        ++ '"' :: ['\x7d']))))))) := by
    show ("\x7b\"client_id\":\"").data ++ escChars s.client_id.data
      ++ ("\",\"original_state\":\"").data ++ escChars s.original_state.data
      ++ ("\",\"scopes\":\"").data ++ escChars s.scopes.data
      ++ ("\",\"original_redirect_uri\":\"").data ++ escChars s.original_redirect_uri.data
      ++ ("\"\x7d").data = _
    rw [e1, e2, e3, e4]
    simp [List.append_assoc]
  rw [deserializeWorkOsState, hdata]
  simp only [expectChars_append, takeJsonStr_escChars, Option.some_bind, Option.bind_some,
    Option.bind_eq_bind]

/-! ### Shared concrete fixtures for witnesses and counterexamples -/

/-- A token that validates: kid `k1`, subject `alice`, expiry 100, audience
`cid`, signed under the components of the fixture key set. -/
def exTok : JwtToken :=
  { headerOk := true
    kid := some ("k1")
    alg := "RS256"
    sub := "alice"
    exp := 100
    aud := "cid"
    sigKey := some ("n1", "e1") }

/-- A token whose header `decode_header` cannot parse. -/
def badTok : JwtToken :=
  { headerOk := false, kid := none, alg := "", sub := "", exp := 0, aud := "", sigKey := none }

/-- Fixture key set holding the key `k1`. -/
def exJwks : JWKS := ⟨[⟨"k1", "RSA", "RS256", "n1", "e1"⟩]⟩

/-- Fixture JWT parse: every bearer string is the fixture token. -/
def exTokenOf : String → JwtToken := fun _ => exTok

/-- Fixture: RSA component decoding always succeeds. -/
def exRsaOk : String → String → Bool := fun _ _ => true

/-- Fixture controller backend where every operation succeeds. -/
def exOracle : ControllerOracle :=
  { addOk := fun _ => true
    getByUser := fun _ => some []
    getByQuery := fun _ => some []
    updateOk := fun _ => true }

/-- Fixture OAuth store. -/
def exStore : McpOAuthStore :=
  { clients := [("mcp-client", seededClient)]
    auth_sessions := []
    access_tokens := []
    jwks := exJwks
    workos_client_id := "wid"
    workos_client_secret := "wsec" }

/-- Fixture authorize query carrying the `plain` code-challenge method. -/
def exPlainQuery : AuthorizeQuery :=
  { response_type := "code"
    code_challenge := some ("abc")
    code_challenge_method := some ("plain")
    client_id := "mcp-client"
    redirect_uri := "http://localhost:8080/callback"
    scope := none
    state := none }

/-! ### Claim theorems -/

/-- C1: the claim says the middleware attaches the verified subject to the
request under the well-known key and every handler retrieves exactly that
subject, never a client-supplied value.  Evaluating the code at the failing
input: with a token that validates with subject `alice`, the middleware passes
the request downstream unchanged (it attaches nothing), so a handler reading
`USER_ID_HEADER` sees the client-supplied value `mallory` — and on a request
without that header `extract_user_id` finds nothing, which in the source is
the `expect("Missing user ID header")` panic. -/
theorem C1_middleware_attaches_nothing :
    check_token exRsaOk (exTokenOf "t") exJwks (some ("cid")) 5 = .ok ⟨"alice", 100⟩
    ∧ validate_token_middleware exRsaOk exTokenOf exJwks (some ("cid")) 5
        ⟨[("Authorization", "Bearer t"), (USER_ID_HEADER, "mallory")]⟩
        (fun r => extract_user_id r.headers)
      = .downstream (some ("mallory"))
    ∧ validate_token_middleware exRsaOk exTokenOf exJwks (some ("cid")) 5
        ⟨[("Authorization", "Bearer t")]⟩
        (fun r => extract_user_id r.headers)
      = .downstream none
    ∧ ("mallory" : String) ≠ "alice" := by
  refine ⟨by decide, by decide, by decide, by decide⟩

/-- C2 counterexample: the `update_memory` tool does not pass the caller's
subject to `MemoryController::update_memory`.  Its handler takes no request
parts at all, and the parameters it builds carry the `Default` empty
`user_id`, not the subject `alice` present in the context. -/
theorem C2_update_memory_not_tenant_scoped :
    (update_memory exOracle ⟨"X", "new"⟩).call
      = some (.updateMemory ⟨"X", "", "new"⟩)
    ∧ extract_user_id [(USER_ID_HEADER, "alice")] = some ("alice")
    ∧ ("" : String) ≠ "alice" := by
  refine ⟨by decide, by decide, by decide⟩

/-- C2 amended: `add_memory`, `get_memory` and `get_memory_by_query` all pass
the `USER_ID_HEADER` value of the request parts as the `user_id` argument of
the controller call, while `update_memory` never reads the context and passes
the default empty `user_id`, scoping the update only by `memory_id`. -/
theorem C2_amended_tenant_arguments (oracle : ControllerOracle)
    (parts : List (String × String)) (uid text query : String)
    (input : UpdateMememoryRequest)
    (h : extract_user_id parts = some uid) (htext : text ≠ "") :
    (add_memory oracle parts ⟨text⟩).call = some (.addMemory ⟨"", uid, text⟩)
    ∧ (get_memory oracle parts).call = some (.getMemoriesByUserId ⟨uid⟩)
    ∧ (get_memory_by_query oracle parts ⟨query⟩).call
        = some (.getMemoriesByQuery ⟨uid, query⟩)
    ∧ (update_memory oracle input).call
        = some (.updateMemory ⟨input.memory_id, "", input.content⟩) := by
  refine ⟨?_, ?_, ?_, ?_⟩
  · rw [add_memory, h]
    simp only [htext, if_false]
    split <;> rfl
  · rw [get_memory, h]
    rcases hr : oracle.getByUser ⟨uid⟩ <;> simp [hr]
  · rw [get_memory_by_query, h]
    rcases hr : oracle.getByQuery ⟨uid, query⟩ <;> simp [hr]
  · rw [update_memory]
    split <;> rfl

/-- C2 amended, witnessed at concrete inputs. -/
theorem C2_amended_tenant_arguments_witness :
    (add_memory exOracle [(USER_ID_HEADER, "alice")] ⟨"hi"⟩).call
      = some (.addMemory ⟨"", "alice", "hi"⟩) :=
  (C2_amended_tenant_arguments exOracle [(USER_ID_HEADER, "alice")] "alice" "hi" "q"
    ⟨"m1", "c1"⟩ (by decide) (by decide)).1

/-- C3 counterexample: token validation is not total.  On a token whose header
cannot be parsed, `check_token` hits `decode_header(token).unwrap()` and
panics instead of returning a malformed-token failure. -/
theorem C3_check_token_panics_on_malformed_header :
    check_token exRsaOk badTok exJwks (some ("cid")) 0 = .panicked := by decide

/-- C3 amended: `check_token` panics (does not return a failure value) when
the token header cannot be parsed; for every failure it does return, whatever
the category, the middleware's response to the client is the identical uniform
401 with an empty body, carrying no information about which validation step
failed. -/
theorem C3_amended_panic_and_uniform_401 :
    (∀ (rsaOk : String → String → Bool) (tok : JwtToken) (keys : JWKS)
        (cid : Option String) (now : Nat), tok.headerOk = false →
        check_token rsaOk tok keys cid now = .panicked)
    ∧ (∀ (ρ : Type) (rsaOk : String → String → Bool) (tokenOf : String → JwtToken)
        (keys : JWKS) (cid : Option String) (now : Nat) (req : HttpRequest)
        (next : HttpRequest → ρ) (t e : String),
        assocFind req.headers ("Authorization") = some ("Bearer " ++ t) →
        check_token rsaOk (tokenOf t) keys cid now = .err e →
        validate_token_middleware rsaOk tokenOf keys cid now req next
          = .response 401 "") := by
  constructor
  · intro rsaOk tok keys cid now h
    rw [check_token, if_pos (by simp [h])]
  · intro ρ rsaOk tokenOf keys cid now req next t e hheader hcheck
    rw [validate_token_middleware, hheader]
    simp only [stripBearer_bearer_append, hcheck]

/-- C3 amended, witnessed at concrete inputs: a malformed token panics, and an
expired token (one of the error categories) yields the uniform 401. -/
theorem C3_amended_witness :
    check_token exRsaOk badTok exJwks (some ("cid")) 1 = .panicked
    ∧ validate_token_middleware exRsaOk exTokenOf exJwks (some ("cid")) 200
        ⟨[("Authorization", "Bearer t")]⟩ (fun _ => (0 : Nat))
      = .response 401 "" :=
  ⟨C3_amended_panic_and_uniform_401.1 exRsaOk badTok exJwks (some ("cid")) 1 rfl,
   C3_amended_panic_and_uniform_401.2 Nat exRsaOk exTokenOf exJwks (some ("cid")) 200
     ⟨[("Authorization", "Bearer t")]⟩ (fun _ => (0 : Nat)) "t"
     ("JWT Decode Error: ExpiredSignature") (by decide) (by decide)⟩

/-- C4: no token whose `exp` is not strictly greater than the current time
validates.  In general `check_token` never returns `ok` for such a token, and
when everything else is in order (parseable header, known `kid`, decodable
key, declared RS256, valid signature, matching audience) it fails with
exactly the expired-signature error. -/
theorem C4_expired_token_never_validates (rsaOk : String → String → Bool)
    (tok : JwtToken) (keys : JWKS) (cid : Option String) (now : Nat)
    (hexp : tok.exp ≤ now) :
    (∀ c : Claims, check_token rsaOk tok keys cid now ≠ .ok c)
    ∧ (∀ (kid : String) (jwk : JWK) (clientId : String),
        tok.headerOk = true → tok.kid = some kid →
        keys.keys.find? (fun k => k.kid == kid) = some jwk →
        rsaOk jwk.n jwk.e = true → tok.alg = "RS256" →
        tok.sigKey = some (jwk.n, jwk.e) → cid = some clientId → tok.aud = clientId →
        check_token rsaOk tok keys cid now
          = .err ("JWT Decode Error: ExpiredSignature")) := by
  have hnot : ¬ now < tok.exp := Nat.not_lt.mpr hexp
  constructor
  · intro c hc
    rw [check_token] at hc
    split at hc
    · exact Outcome.noConfusion hc
    · split at hc
      · exact Outcome.noConfusion hc
      · split at hc
        · exact Outcome.noConfusion hc
        · split at hc
          · exact Outcome.noConfusion hc
          · split at hc
            · exact Outcome.noConfusion hc
            · split at hc
              · exact Outcome.noConfusion hc
              · rename_i heq
                rw [jwtDecode] at heq
                split_ifs at heq
  · intro kid jwk clientId hh hkid hfind hrsa halg hsig hcid haud
    simp [check_token, jwtDecode, hh, hkid, hcid, hfind, hrsa, halg, hsig, haud, hnot]

/-- C4 witnessed at a concrete expired token: `exp = 100`, validated at time
200 with a known key, valid signature and matching audience. -/
theorem C4_expired_token_never_validates_witness :
    check_token exRsaOk exTok exJwks (some ("cid")) 200
      = .err ("JWT Decode Error: ExpiredSignature") :=
  (C4_expired_token_never_validates exRsaOk exTok exJwks (some ("cid")) 200
      (by decide)).2 "k1" ⟨"k1", "RSA", "RS256", "n1", "e1"⟩ "cid"
    rfl rfl (by decide) rfl rfl rfl rfl rfl

/-- C5 counterexample: the success result of `add_memory` is not the persisted
record.  `MemoryController::add_memory` returns `Result<()>`, so the handler
serializes the unit value: the payload is the string `"null"` for every
non-empty input, and the record handed to the controller carries no assigned
identifier (`memory_id` is the `Default` empty string). -/
theorem C5_add_memory_returns_null_not_record :
    add_memory exOracle [(USER_ID_HEADER, "alice")] ⟨"hello"⟩
      = ⟨some (.addMemory ⟨"", "alice", "hello"⟩), .success ["null"]⟩
    ∧ add_memory exOracle [(USER_ID_HEADER, "alice")] ⟨"world"⟩
      = ⟨some (.addMemory ⟨"", "alice", "world"⟩), .success ["null"]⟩
    ∧ ("hello" : String) ≠ "world" := by
  refine ⟨by decide, by decide, by decide⟩

/-- C5 amended: with a context carrying a user id, empty text yields the
invalid-input error without any controller call; non-empty text sends the
controller a record whose content is the input text and whose `user_id` is the
context's header value (with no identifier assigned at this layer), and the
success payload is `"null"`, the serialization of the controller's unit
result, not the persisted record. -/
theorem C5_amended_add_memory (oracle : ControllerOracle)
    (parts : List (String × String)) (uid : String) (text : String)
    (h : extract_user_id parts = some uid) :
    (text = "" →
      add_memory oracle parts ⟨text⟩
        = ⟨none, .invalidRequest ("Memory content cannot be empty")⟩)
    ∧ (text ≠ "" → oracle.addOk ⟨"", uid, text⟩ = true →
        add_memory oracle parts ⟨text⟩
          = ⟨some (.addMemory ⟨"", uid, text⟩), .success ["null"]⟩) := by
  constructor
  · intro he
    rw [add_memory, h]
    simp [he]
  · intro hne hok
    rw [add_memory, h]
    simp [hne, hok]

/-- C5 amended, witnessed at concrete inputs. -/
theorem C5_amended_add_memory_witness :
    add_memory exOracle [(USER_ID_HEADER, "alice")] ⟨""⟩
      = ⟨none, .invalidRequest ("Memory content cannot be empty")⟩
    ∧ add_memory exOracle [(USER_ID_HEADER, "alice")] ⟨"hi"⟩
      = ⟨some (.addMemory ⟨"", "alice", "hi"⟩), .success ["null"]⟩ :=
  ⟨(C5_amended_add_memory exOracle [(USER_ID_HEADER, "alice")] "alice" ""
      (by decide)).1 rfl,
   (C5_amended_add_memory exOracle [(USER_ID_HEADER, "alice")] "alice" "hi"
      (by decide)).2 (by decide) (by decide)⟩

/-- C6 counterexample: the authorize path accepts the `plain` code-challenge
method.  A query carrying `code_challenge_method=plain` is not rejected: it is
answered with a temporary redirect that forwards `plain` verbatim to the
upstream identity provider. -/
theorem C6_plain_challenge_accepted :
    oauth_authorize exStore exPlainQuery
      = .temporaryRedirect (workosAuthorizeUrl "wid" exPlainQuery)
    ∧ assocFind (workosAuthorizeUrl "wid" exPlainQuery).params ("code_challenge_method")
      = some ("plain") := by
  refine ⟨by decide, by decide⟩

/-- C6 amended: the discovery metadata advertises exactly `["S256"]` as the
supported code-challenge methods (so `S256` is advertised and `plain` never
is), but the authorize path rejects nothing: every query is redirected
upstream, and whatever code-challenge method the caller supplies — `plain`
included — is forwarded verbatim (defaulting to `S256` only when absent). -/
theorem C6_amended_metadata_s256_authorize_forwards :
    assocFind (oauth_authorization_server.2.additional_fields)
        ("code_challenge_methods_supported") = some (.arrStr ["S256"])
    ∧ (∀ ms, assocFind (oauth_authorization_server.2.additional_fields)
          ("code_challenge_methods_supported") = some (.arrStr ms) →
        "S256" ∈ ms ∧ "plain" ∉ ms)
    ∧ (∀ (store : McpOAuthStore) (q : AuthorizeQuery),
        oauth_authorize store q
          = .temporaryRedirect (workosAuthorizeUrl store.workos_client_id q))
    ∧ (∀ (store : McpOAuthStore) (q : AuthorizeQuery) (m : String),
        q.code_challenge_method = some m →
        assocFind (workosAuthorizeUrl store.workos_client_id q).params
            ("code_challenge_method") = some m) := by
  refine ⟨by decide, ?_, fun store q => rfl, ?_⟩
  · intro ms hms
    have : ms = ["S256"] := by
      have h0 : some (JsonVal.arrStr ms) = some (JsonVal.arrStr ["S256"]) := by
        rw [← hms]; decide
      simpa using h0
    subst this
    exact ⟨by decide, by decide⟩
  · intro store q m hm
    simp [workosAuthorizeUrl, assocFind, hm]

/-- C6 amended, witnessed at concrete inputs. -/
theorem C6_amended_metadata_witness :
    assocFind (workosAuthorizeUrl "wid" exPlainQuery).params ("code_challenge_method")
        = some ("plain")
    ∧ ("S256" ∈ (["S256"] : List String) ∧ "plain" ∉ (["S256"] : List String)) :=
  ⟨C6_amended_metadata_s256_authorize_forwards.2.2.2 exStore exPlainQuery "plain" rfl,
   C6_amended_metadata_s256_authorize_forwards.2.1 ["S256"] (by decide)⟩

/-- C7 counterexample: a registration whose redirect-URI list is `[""]` is not
rejected — the list is non-empty, so the client is created and stored with the
empty string as its redirect URI. -/
theorem C7_empty_redirect_uri_stored :
    oauth_register [] ⟨"bad-client", [""]⟩ "u1" "s1"
      = (.created ⟨"client-u1", some ("s1"), "bad-client", [""]⟩,
         [("client-u1", ⟨"client-u1", some ("s1"), [], ""⟩)])
    ∧ (⟨"client-u1", some ("s1"), [], ""⟩ : OAuthClientConfig).redirect_uri = "" := by
  refine ⟨by decide, by decide⟩

/-- C7 amended: a registration with an empty redirect-URI list is rejected
with `invalid_request` and leaves the registry unchanged; a successful
registration stores a client whose `redirect_uri` equals the first element of
the submitted list — the list must be non-empty, but that first element may
itself be the empty string. -/
theorem C7_amended_register (clients : List (String × OAuthClientConfig))
    (req : ClientRegistrationRequest) (u s : String) :
    (req.redirect_uris = [] →
      oauth_register clients req u s
        = (.badRequest ("invalid_request") ("at least one redirect uri is required"),
           clients))
    ∧ (∀ uri0 rest, req.redirect_uris = uri0 :: rest →
        oauth_register clients req u s
          = (.created ⟨"client-" ++ u, some s, req.client_name, req.redirect_uris⟩,
             ("client-" ++ u, ⟨"client-" ++ u, some s, [], uri0⟩) :: clients)) := by
  constructor
  · intro he
    rw [oauth_register.eq_def, he]
  · intro uri0 rest he
    rw [oauth_register.eq_def, he]

/-- C7 amended, witnessed at concrete inputs. -/
theorem C7_amended_register_witness :
    oauth_register [] ⟨"c", []⟩ "u" "s"
      = (.badRequest ("invalid_request") ("at least one redirect uri is required"), [])
    ∧ oauth_register [] ⟨"c", ["http://a"]⟩ "u" "s"
      = (.created ⟨"client-u", some ("s"), "c", ["http://a"]⟩,
         [("client-u", ⟨"client-u", some ("s"), [], "http://a"⟩)]) :=
  ⟨(C7_amended_register [] ⟨"c", []⟩ "u" "s").1 rfl,
   (C7_amended_register [] ⟨"c", ["http://a"]⟩ "u" "s").2 "http://a" [] rfl⟩

/-- C8: `oauth_authorize` never rejects — for every store contents and every
query it answers with the temporary redirect to the upstream provider
(`validate_client` is never consulted: the response is invariant under any
change to the client registry), the caller-supplied `redirect_uri` travels
inside the serialized `state` parameter, and `workos_callback`, given that
state back, redirects to the caller-supplied `original_redirect_uri` with the
code and original state attached, without consulting any registration. -/
theorem C8_authorize_unvalidated_roundtrip (store : McpOAuthStore)
    (cls : List (String × OAuthClientConfig)) (q : AuthorizeQuery) (code : String) :
    oauth_authorize store q
      = .temporaryRedirect (workosAuthorizeUrl store.workos_client_id q)
    ∧ oauth_authorize { store with clients := cls } q = oauth_authorize store q
    ∧ assocFind (workosAuthorizeUrl store.workos_client_id q).params ("state")
        = some (serializeWorkOsState
            ⟨q.client_id, q.state.getD "", q.scope.getD "", q.redirect_uri⟩)
    ∧ workos_callback
        [("code", code),
         ("state", serializeWorkOsState
            ⟨q.client_id, q.state.getD "", q.scope.getD "", q.redirect_uri⟩)]
      = .temporaryRedirect ⟨q.redirect_uri, [("code", code), ("state", q.state.getD "")]⟩ := by
  refine ⟨rfl, rfl, by simp [workosAuthorizeUrl, assocFind], ?_⟩
  rw [workos_callback]
  simp only [assocFind, List.find?]
  simp [deserializeWorkOsState_serializeWorkOsState]

/-- C9: the token endpoint is not total over its public input.  A form whose
`grant_type` is neither `authorization_code` nor `refresh_token` hits
`panic!("Invalid grant type")`; an `authorization_code` form missing `code`
or `code_verifier`, and a `refresh_token` form missing `refresh_token`,
panic on `.unwrap()` of the missing field — none of these produce a
structured OAuth error response. -/
theorem C9_oauth_token_panics (store : McpOAuthStore) (form : List (String × String)) :
    ((assocFind form ("grant_type")).getD "" ≠ "authorization_code" →
     (assocFind form ("grant_type")).getD "" ≠ "refresh_token" →
      oauth_token store form = .panicked)
    ∧ ((assocFind form ("grant_type")).getD "" = "authorization_code" →
        assocFind form ("code") = none ∨ assocFind form ("code_verifier") = none →
        oauth_token store form = .panicked)
    ∧ ((assocFind form ("grant_type")).getD "" = "refresh_token" →
        assocFind form ("refresh_token") = none →
        oauth_token store form = .panicked) := by
  refine ⟨?_, ?_, ?_⟩
  · intro h1 h2
    rw [oauth_token, if_neg h1, if_neg h2]
  · intro h1 h2
    rw [oauth_token, if_pos h1]
    rcases h2 with h2 | h2
    · rw [h2]
    · rcases hc : assocFind form ("code") with _ | c
      · rfl
      · rw [h2]
  · intro h1 h2
    by_cases hac : (assocFind form ("grant_type")).getD "" = "authorization_code"
    · rw [h1] at hac
      exact absurd hac (by decide)
    · rw [oauth_token, if_neg hac, if_pos h1, h2]

/-- C9, witnessed at concrete forms for each of the three panicking shapes. -/
theorem C9_oauth_token_panics_witness :
    oauth_token exStore [("grant_type", "password")] = .panicked
    ∧ oauth_token exStore [("grant_type", "authorization_code")] = .panicked
    ∧ oauth_token exStore [("grant_type", "refresh_token")] = .panicked :=
  ⟨(C9_oauth_token_panics exStore [("grant_type", "password")]).1
      (by decide) (by decide),
   (C9_oauth_token_panics exStore [("grant_type", "authorization_code")]).2.1
      (by decide) (Or.inl (by decide)),
   (C9_oauth_token_panics exStore [("grant_type", "refresh_token")]).2.2
      (by decide) (by decide)⟩

/-- C10: every successfully constructed store is pre-seeded with the
hard-coded `mcp-client` registration — client id `mcp-client`, secret
`mcp-client-secret`, redirect URI `http://localhost:8080/callback` —
independent of the environment values and the fetched key set. -/
theorem C10_new_seeds_mcp_client (a b c : Option String)
    (f : String → Option JWKS) (st : McpOAuthStore)
    (h : McpOAuthStore.new a b c f = .ok st) :
    assocFind st.clients ("mcp-client") = some seededClient
    ∧ seededClient.client_id = "mcp-client"
    ∧ seededClient.client_secret = some ("mcp-client-secret")
    ∧ seededClient.redirect_uri = "http://localhost:8080/callback" := by
  rw [McpOAuthStore.new.eq_def] at h
  rcases a with _ | cid
  · exact Outcome.noConfusion h
  · rcases b with _ | csec
    · exact Outcome.noConfusion h
    · rcases c with _ | url
      · exact Outcome.noConfusion h
      · rcases hf : f url with _ | jwks
        · simp only [hf] at h
          exact Outcome.noConfusion h
        · simp only [hf] at h
          cases h
          exact ⟨rfl, rfl, rfl, rfl⟩

/-- C10, witnessed at a concrete successful construction. -/
theorem C10_new_seeds_mcp_client_witness :
    assocFind
      ({ clients := [("mcp-client", seededClient)]
         auth_sessions := []
         access_tokens := []
         jwks := exJwks
         workos_client_id := "id"
         workos_client_secret := "sec" } : McpOAuthStore).clients ("mcp-client")
      = some seededClient :=
  (C10_new_seeds_mcp_client (some ("id")) (some ("sec")) (some ("url"))
    (fun _ => some exJwks) _ rfl).1

end Umem
